import Mathlib

/-!
Verification model of the Momentum-Trading data-fetching code
(`src/robust_data_fetcher.py`, `src/sample_data_fetcher.py`,
`src/simple_data_fetcher.py`).

Modelling conventions:
* Python floats are modelled as exact rationals (`ℚ`); `round(x, 2)` is
  modelled as rounding to the nearest multiple of 1/100 (`round2`).  The
  properties proved below depend only on monotonicity of rounding and on its
  fixed points, which ties-to-even (Python) and ties-up (Mathlib `round`)
  share.
* Calendar dates are day indices in `ℤ`, with day 0 a Monday, so a date `d`
  is a weekday exactly when `d % 7 < 5`.  `datetime.now()` becomes an
  explicit `today : ℤ` parameter.
* The NumPy global generator seeded at `robust_data_fetcher.py:89` is
  modelled as an oracle: `streams : ℕ → Draws` maps a seed to the streams of
  values produced by the seeded generator, one stream per draw site
  (`normal`, the two `uniform(0, volatility)` calls, `randint`), indexed by
  bar position.  Support facts of the NumPy distributions (e.g. that
  `randint(a, b)` lies in `[a, b)`) enter as hypotheses where needed.
* Python's builtin `hash` on an ASCII `str` (used for the seed) is CPython's
  keyed siphash13 (the default string hash of CPython ≥ 3.11 on 64-bit
  builds) of the string's bytes, keyed by the per-process hash secret
  `(k0, k1)`; `PYTHONHASHSEED` unset means a fresh random secret per
  process.  The model below reproduces the builtin bit-for-bit: with the
  zero secret it yields hash "AAPL" = 6190759922665762322 and
  hash "MSFT" = -6564825135532105815, matching `PYTHONHASHSEED=0` CPython.
* `requests`-based real fetching is an external collaborator; it is a stub
  parameter `fetchReal` of the environment, as in the spec's test scenarios.
  CSV writes are modelled as the list of file paths written.
-/

set_option linter.unusedVariables false
set_option maxRecDepth 8000

namespace Momentum

/-! ## CPython string hash: siphash13 over 64-bit words -/

/-- `2 ^ 64`, the modulus of 64-bit word arithmetic. -/
def M64 : ℕ := 2 ^ 64

/-- Rotate a 64-bit word (a natural number `< 2 ^ 64`) left by `b` bits. -/
def rotl (x b : ℕ) : ℕ := x % 2 ^ (64 - b) * 2 ^ b + x / 2 ^ (64 - b)

/-- The four-word internal state of siphash. -/
structure SipState where
  v0 : ℕ
  v1 : ℕ
  v2 : ℕ
  v3 : ℕ

/-- One siphash round (CPython `SINGLE_ROUND`). -/
def sipRound (s : SipState) : SipState :=
  let a0 := (s.v0 + s.v1) % M64
  let a1 := rotl s.v1 13
  let b1 := a1 ^^^ a0
  let b0 := rotl a0 32
  let a2 := (s.v2 + s.v3) % M64
  let a3 := rotl s.v3 16
  let b3 := a3 ^^^ a2
  let c0 := (b0 + b3) % M64
  let c3 := rotl b3 21
  let d3 := c3 ^^^ c0
  let c2 := (a2 + b1) % M64
  let c1 := rotl b1 17
  let d1 := c1 ^^^ c2
  let d2 := rotl c2 32
  ⟨c0, d1, d2, d3⟩

/-- Absorb one 64-bit message word: `v3 ^= m; ROUND; v0 ^= m`. -/
def sipCompress (s : SipState) (m : ℕ) : SipState :=
  let t := sipRound { s with v3 := s.v3 ^^^ m }
  { t with v0 := t.v0 ^^^ m }

/-- Little-endian value of a list of bytes. -/
def le64 : List ℕ → ℕ
  | [] => 0
  | b :: bs => b + 256 * le64 bs

/-- Split a byte string into full 8-byte little-endian words and the tail. -/
def sipBlocks : List ℕ → List ℕ × List ℕ
  | b0 :: b1 :: b2 :: b3 :: b4 :: b5 :: b6 :: b7 :: rest =>
    let p := sipBlocks rest
    (le64 [b0, b1, b2, b3, b4, b5, b6, b7] :: p.1, p.2)
  | bs => ([], bs)

/-- SipHash-1-3 of a byte string under key `(k0, k1)`, exactly as in
CPython's `pysiphash` (one compression round, three finalization rounds). -/
def siphash13 (k0 k1 : ℕ) (data : List ℕ) : ℕ :=
  let s0 : SipState :=
    ⟨k0 % M64 ^^^ 0x736f6d6570736575,
     k1 % M64 ^^^ 0x646f72616e646f6d,
     k0 % M64 ^^^ 0x6c7967656e657261,
     k1 % M64 ^^^ 0x7465646279746573⟩
  let p := sipBlocks data
  let s1 := p.1.foldl sipCompress s0
  let b := data.length % 256 * 2 ^ 56 + le64 p.2
  let s2 := sipCompress s1 b
  let s3 := { s2 with v2 := s2.v2 ^^^ 0xff }
  let s4 := sipRound (sipRound (sipRound s3))
  s4.v0 ^^^ s4.v1 ^^^ (s4.v2 ^^^ s4.v3)

/-- The bytes CPython hashes for an ASCII string: its code points (the UCS1
representation, one byte per character). -/
def strBytes (s : String) : List ℕ := s.data.map Char.toNat

/-- Reinterpret a 64-bit unsigned word as the signed `Py_hash_t`. -/
def toSigned64 (u : ℕ) : ℤ := if u < 2 ^ 63 then (u : ℤ) else (u : ℤ) - 2 ^ 64

/-- Python's builtin `hash` on an ASCII string: siphash13 of its bytes under
the process hash secret, cast to signed 64-bit, with the CPython fixups
(empty string hashes to 0; a result of -1 becomes -2). -/
def pyHash (k0 k1 : ℕ) (s : String) : ℤ :=
  if s.data.length = 0 then 0
  else
    let h := toSigned64 (siphash13 k0 k1 (strBytes s))
    if h = -1 then -2 else h

/-- The NumPy seed computed at `robust_data_fetcher.py:89`:
`hash(symbol) % 1000`, with Python's nonnegative `%` on a signed hash. -/
def pySeed (k0 k1 : ℕ) (s : String) : ℕ := (pyHash k0 k1 s % 1000).toNat

/-! ## Dates (`robust_data_fetcher.py:81-86`) -/

/-- `pandas` weekday test `date.weekday() < 5`, with day 0 a Monday. -/
def isWeekday (d : ℤ) : Bool := decide (d % 7 < 5)

/-- `pd.date_range(start=now - timedelta(days=days), end=now, freq='D')`:
the `days + 1` consecutive dates ending `today`, both endpoints included. -/
def dateRange (today : ℤ) (days : ℕ) : List ℤ :=
  (List.range (days + 1)).map fun i : ℕ => today - (days : ℤ) + (i : ℤ)

/-- The weekday dates of the window: `date_range[date_range.weekday < 5]`. -/
def tradingDates (today : ℤ) (days : ℕ) : List ℤ :=
  (dateRange today days).filter isWeekday

/-! ## The synthetic OHLCV generator -/

/-- The per-seed streams of values drawn from the seeded NumPy generator,
one stream per call site in the generation loop, indexed by bar position. -/
structure Draws where
  normal : ℕ → ℚ
  uniHigh : ℕ → ℚ
  uniLow : ℕ → ℚ
  randint : ℕ → ℕ

/-- One row of the generated frame (the dict built at
`robust_data_fetcher.py:117-123`); price fields are the rounded values. -/
structure Bar where
  Open : ℚ
  High : ℚ
  Low : ℚ
  Close : ℚ
  Volume : ℕ
  deriving DecidableEq

/-- Python `round(x, 2)`: round to the nearest multiple of 1/100 (written
with `⌊· + 1/2⌋`; the tie-breaking rule is irrelevant to every property
proved below, which use only monotonicity and fixed points of rounding). -/
def round2 (x : ℚ) : ℚ := ((⌊100 * x + 1 / 2⌋ : ℤ) : ℚ) / 100

/-- The price-walk loop `for ret in daily_returns[1:]` starting after the
base price: each step is `max(prev * (1 + ret), 0.01)`.  `i` is the index
into the returns stream, `k` the number of steps left. -/
def pricesAux (rets : ℕ → ℚ) : ℚ → ℕ → ℕ → List ℚ
  | _, _, 0 => []
  | p, i, k + 1 =>
    let q := max (p * (1 + rets i)) (1 / 100)
    q :: pricesAux rets q (i + 1) k

/-- `prices = [base_price]` followed by the walk over `daily_returns[1:]`
(`robust_data_fetcher.py:98-101`); `n` is `len(date_range)`. -/
def buildPrices (base : ℚ) (rets : ℕ → ℚ) (n : ℕ) : List ℚ :=
  base :: pricesAux rets base 1 (n - 1)

/-- One iteration of the OHLC loop body (`robust_data_fetcher.py:105-123`)
at index `i` with open price `openP` and close `price` on date `d`. -/
def mkRow (draws : Draws) (i : ℕ) (openP price : ℚ) (d : ℤ) : ℤ × Bar :=
  let volatility := price * (2 / 100)
  let high := price + draws.uniHigh i
  let low := price - draws.uniLow i
  let high2 := max (max high openP) price
  let low2 := min (min low openP) price
  (d, ⟨round2 openP, round2 high2, round2 low2, round2 price, draws.randint i⟩)

/-- The loop `for i, (date, price) in enumerate(zip(date_range, prices))`:
`prev` carries `prices[i-1]`, and the open price is `prices[i-1] if i > 0
else price`.  Like Python's `zip`, recursion stops at the shorter list. -/
def mkRows (draws : Draws) : ℕ → ℚ → List ℤ → List ℚ → List (ℤ × Bar)
  | _, _, [], _ => []
  | _, _, _ :: _, [] => []
  | i, prev, d :: ds, p :: ps =>
    mkRow draws i (if i = 0 then p else prev) p d :: mkRows draws (i + 1) p ds ps

/-- `base_price = 100.0 if symbol == 'SPY' else 150.0`. -/
def basePrice (symbol : String) : ℚ := if symbol = "SPY" then 100 else 150

/-- `RobustDataFetcher.generate_sample_data(symbol, days)`: the returned
frame as a list of `(date, bar)` rows.  `(k0, k1)` is the process hash
secret and `streams` the seed-indexed draw oracle. -/
def generate_sample_data (k0 k1 : ℕ) (streams : ℕ → Draws) (today : ℤ)
    (symbol : String) (days : ℕ) : List (ℤ × Bar) :=
  let dates := tradingDates today days
  let draws := streams (pySeed k0 k1 symbol)
  let prices := buildPrices (basePrice symbol) draws.normal dates.length
  mkRows draws 0 0 dates prices

/-- `SampleDataFetcher.generate_sample_data(symbol, days)` (default dates):
same core loop, but seeded with the constant 42, base price 100, and the
snapshot written to the `_sample_` file name.  Returns the frame and the
path written. -/
def sample_generate (streams : ℕ → Draws) (today : ℤ)
    (dataDir dateStr symbol : String) (days : ℕ) : List (ℤ × Bar) × String :=
  let dates := tradingDates today days
  let draws := streams 42
  let prices := buildPrices 100 draws.normal dates.length
  (mkRows draws 0 0 dates prices,
   dataDir ++ "/" ++ symbol ++ "_sample_" ++ dateStr ++ ".csv")

/-! ## Fetch orchestration (`robust_data_fetcher.py:129-159`) -/

/-- The snapshot path `f"{data_dir}/{symbol}_{date}.csv"` written at
`robust_data_fetcher.py:141`. -/
def csvPath (dataDir symbol dateStr : String) : String :=
  dataDir ++ "/" ++ symbol ++ "_" ++ dateStr ++ ".csv"

/-- The ambient state of a `RobustDataFetcher` call: the (stubbable) real
client `fetchReal` (the normalized result of `fetch_real_data`, already
`None` on every failure path), the process hash secret `(k0, k1)`, the
seeded-generator oracle, today's date index and its `%Y%m%d` rendering. -/
structure Env where
  fetchReal : String → Option (List (ℤ × Bar))
  k0 : ℕ
  k1 : ℕ
  streams : ℕ → Draws
  today : ℤ
  dateStr : String

/-- `RobustDataFetcher.fetch_data(symbol, period='1y', fallback_to_sample)`:
try the real client; if it yields `None` and fallback is enabled, generate
the synthetic series with `days=252`; if any frame resulted, save it to
`csvPath` (the rate-limit sleep has no observable effect and is dropped).
Returns the frame (or `none`) and the list of snapshot paths written. -/
def fetch_data (env : Env) (dataDir symbol : String) (fallbackToSample : Bool) :
    Option (List (ℤ × Bar)) × List String :=
  let df :=
    match env.fetchReal symbol with
    | some d => some d
    | none =>
      if fallbackToSample then
        some (generate_sample_data env.k0 env.k1 env.streams env.today symbol 252)
      else none
  match df with
  | some d => (some d, [csvPath dataDir symbol env.dateStr])
  | none => (none, [])

/-- `RobustDataFetcher.get_multiple_symbols(symbols)`: sequential
`fetch_data` with fallback enabled, collecting the non-`None` frames keyed
by symbol, in order, and accumulating the snapshot writes. -/
def get_multiple_symbols (env : Env) (dataDir : String) :
    List String → List (String × List (ℤ × Bar)) × List String
  | [] => ([], [])
  | s :: rest =>
    let r := fetch_data env dataDir s true
    let m := get_multiple_symbols env dataDir rest
    (match r.1 with
     | some d => (s, d) :: m.1
     | none => m.1,
     r.2 ++ m.2)

/-! ## Draw support contracts and concrete instances used by witnesses -/

/-- The support contract of `np.random.randint(1000000, 10000000)` at
`robust_data_fetcher.py:115`: every drawn value is an integer in the
half-open range `[1000000, 10000000)` (NumPy's upper bound is exclusive). -/
def RandintOk (streams : ℕ → Draws) : Prop :=
  ∀ s i, 1000000 ≤ (streams s).randint i ∧ (streams s).randint i < 10000000

/-- A concrete draw stream: zero returns and offsets, minimal volume. -/
def constDraws : Draws := ⟨fun _ => 0, fun _ => 0, fun _ => 0, fun _ => 1000000⟩

/-- A seed-independent oracle assignment built from `constDraws`. -/
def constStreams : ℕ → Draws := fun _ => constDraws

/-- A concrete environment whose client always returns `None`, with the
zero hash secret, run on day 0 (a Monday) rendered as `"20240601"`. -/
def stubEnv : Env := ⟨fun _ => none, 0, 0, constStreams, 0, "20240601"⟩

/-- The single bar generated for `"SPY"` under `constStreams` with
`days = 0` on a Monday: all prices 100, volume 1000000. -/
def barW : Bar := ⟨100, 100, 100, 100, 1000000⟩

/-! ## Helper lemmas -/

theorem round2_mono {x y : ℚ} (h : x ≤ y) : round2 x ≤ round2 y := by
  have hf : ⌊100 * x + 1 / 2⌋ ≤ ⌊100 * y + 1 / 2⌋ := Int.floor_mono (by linarith)
  have hc : ((⌊100 * x + 1 / 2⌋ : ℤ) : ℚ) ≤ ((⌊100 * y + 1 / 2⌋ : ℤ) : ℚ) := by
    exact_mod_cast hf
  unfold round2
  linarith

theorem round2_hundredth : round2 (1 / 100) = 1 / 100 := by
  unfold round2
  norm_num

theorem mkRow_snd (draws : Draws) (i : ℕ) (o p : ℚ) (d : ℤ) :
    (mkRow draws i o p d).2 =
      ⟨round2 o, round2 (max (max (p + draws.uniHigh i) o) p),
       round2 (min (min (p - draws.uniLow i) o) p), round2 p, draws.randint i⟩ := rfl

theorem mkRow_ohlc (draws : Draws) (i : ℕ) (o p : ℚ) (d : ℤ) :
    (mkRow draws i o p d).2.Low ≤ (mkRow draws i o p d).2.Open ∧
      (mkRow draws i o p d).2.Open ≤ (mkRow draws i o p d).2.High ∧
      (mkRow draws i o p d).2.Low ≤ (mkRow draws i o p d).2.Close ∧
      (mkRow draws i o p d).2.Close ≤ (mkRow draws i o p d).2.High := by
  rw [mkRow_snd]
  refine ⟨round2_mono ?_, round2_mono ?_, round2_mono ?_, round2_mono ?_⟩
  · exact le_trans (min_le_left _ _) (min_le_right _ _)
  · exact le_trans (le_max_right _ _) (le_max_left _ _)
  · exact min_le_right _ _
  · exact le_max_right _ _

theorem mem_mkRows (draws : Draws) (r : ℤ × Bar) :
    ∀ (ds : List ℤ) (ps : List ℚ) (i : ℕ) (prev : ℚ),
      r ∈ mkRows draws i prev ds ps →
      ∃ j o p d, p ∈ ps ∧ r = mkRow draws j o p d := by
  intro ds
  induction ds with
  | nil => intro ps i prev h; simp [mkRows] at h
  | cons dd ds ih =>
    intro ps i prev h
    cases ps with
    | nil => simp [mkRows] at h
    | cons p ps =>
      simp only [mkRows, List.mem_cons] at h
      rcases h with h1 | h2
      · exact ⟨i, if i = 0 then p else prev, p, dd, List.mem_cons_self _ _, h1⟩
      · obtain ⟨j, o, q, d, hq, he⟩ := ih ps (i + 1) p h2
        exact ⟨j, o, q, d, List.mem_cons_of_mem _ hq, he⟩

theorem mem_pricesAux (rets : ℕ → ℚ) :
    ∀ (k : ℕ) (p : ℚ) (i : ℕ) (q : ℚ), q ∈ pricesAux rets p i k → 1 / 100 ≤ q := by
  intro k
  induction k with
  | zero => intro p i q h; simp [pricesAux] at h
  | succ k ih =>
    intro p i q h
    simp only [pricesAux, List.mem_cons] at h
    rcases h with h1 | h2
    · rw [h1]; exact le_max_right _ _
    · exact ih _ _ _ h2

theorem mem_buildPrices {base : ℚ} {rets : ℕ → ℚ} {n : ℕ} {q : ℚ}
    (hb : 1 / 100 ≤ base) (h : q ∈ buildPrices base rets n) : 1 / 100 ≤ q := by
  simp only [buildPrices, List.mem_cons] at h
  rcases h with h1 | h2
  · rw [h1]; exact hb
  · exact mem_pricesAux rets _ _ _ _ h2

theorem basePrice_ge (symbol : String) : 1 / 100 ≤ basePrice symbol := by
  unfold basePrice
  split <;> norm_num

theorem pricesAux_length (rets : ℕ → ℚ) :
    ∀ (k : ℕ) (p : ℚ) (i : ℕ), (pricesAux rets p i k).length = k := by
  intro k
  induction k with
  | zero => intro p i; rfl
  | succ k ih => intro p i; simp [pricesAux, ih]

theorem buildPrices_length (base : ℚ) (rets : ℕ → ℚ) (n : ℕ) :
    (buildPrices base rets n).length = n - 1 + 1 := by
  simp [buildPrices, pricesAux_length]

theorem mkRows_length (draws : Draws) :
    ∀ (ds : List ℤ) (ps : List ℚ) (i : ℕ) (prev : ℚ),
      (mkRows draws i prev ds ps).length = min ds.length ps.length := by
  intro ds
  induction ds with
  | nil => intro ps i prev; simp [mkRows]
  | cons dd ds ih =>
    intro ps i prev
    cases ps with
    | nil => simp [mkRows]
    | cons p ps => simp [mkRows, ih, Nat.succ_min_succ]

theorem generate_sample_data_length (k0 k1 : ℕ) (streams : ℕ → Draws) (today : ℤ)
    (symbol : String) (days : ℕ) :
    (generate_sample_data k0 k1 streams today symbol days).length
      = (tradingDates today days).length := by
  unfold generate_sample_data
  rw [mkRows_length, buildPrices_length]
  omega

theorem weekday_in_three (s : ℤ) : s % 7 < 5 ∨ (s + 1) % 7 < 5 ∨ (s + 2) % 7 < 5 := by
  omega

theorem tradingDates_ne_nil (today : ℤ) (days : ℕ) (h : 2 ≤ days) :
    tradingDates today days ≠ [] := by
  have key : ∀ i : ℕ, i < days + 1 → (today - (days : ℤ) + (i : ℤ)) % 7 < 5 →
      tradingDates today days ≠ [] := by
    intro i hi hw
    refine List.ne_nil_of_mem (a := today - (days : ℤ) + (i : ℤ)) ?_
    simp only [tradingDates, dateRange, List.mem_filter, List.mem_map, List.mem_range]
    exact ⟨⟨i, hi, rfl⟩, by simpa [isWeekday] using hw⟩
  rcases weekday_in_three (today - (days : ℤ)) with hw | hw | hw
  · exact key 0 (by omega) (by push_cast; simpa using hw)
  · exact key 1 (by omega) (by push_cast; simpa using hw)
  · exact key 2 (by omega) (by push_cast; simpa using hw)

theorem generate_sample_data_ne_nil (k0 k1 : ℕ) (streams : ℕ → Draws) (today : ℤ)
    (symbol : String) (days : ℕ) (h : 2 ≤ days) :
    generate_sample_data k0 k1 streams today symbol days ≠ [] := by
  intro hnil
  have hl := generate_sample_data_length k0 k1 streams today symbol days
  rw [hnil] at hl
  exact tradingDates_ne_nil today days h (List.length_eq_zero.mp hl.symm)

theorem generate_eq_of_seed_eq (k0 k1 : ℕ) (streams : ℕ → Draws) (today : ℤ)
    {s1 s2 : String} (days : ℕ) (h1 : s1 ≠ "SPY") (h2 : s2 ≠ "SPY")
    (hs : pySeed k0 k1 s1 = pySeed k0 k1 s2) :
    generate_sample_data k0 k1 streams today s1 days
      = generate_sample_data k0 k1 streams today s2 days := by
  unfold generate_sample_data basePrice
  rw [hs, if_neg h1, if_neg h2]

theorem gen_eval :
    generate_sample_data 0 0 constStreams 0 "SPY" 0 = [((0 : ℤ), barW)] := by
  have hdates : tradingDates 0 0 = [0] := rfl
  simp only [generate_sample_data, hdates, constStreams, constDraws, basePrice,
    if_pos rfl, List.length_cons, List.length_nil, buildPrices, pricesAux,
    mkRows, mkRow, barW, round2]
  norm_num

/-! ## Claim theorems -/

/-- C1: the claim that `generate` is deterministic across processes because the seed is
derived purely from the symbol fails on the code: the seed at
`robust_data_fetcher.py:89` is `hash(symbol) % 1000` with CPython's salted string hash,
and under two different per-process hash secrets - (0,0) and (1,0) - the symbol "AAPL"
yields the different seeds 322 and 408, so separate processes seed the generator
differently and produce different series. -/
theorem c1_seed_not_process_independent :
    pySeed 0 0 "AAPL" = 322 ∧ pySeed 1 0 "AAPL" = 408 ∧
      pySeed 0 0 "AAPL" ≠ pySeed 1 0 "AAPL" :=
  ⟨by decide, by decide, by decide⟩

/-- C2: for every symbol, lookback window and draw outcome, every bar of the generated
series satisfies the OHLC invariant low ≤ open ≤ high and low ≤ close ≤ high on the
stored 2-decimal-rounded fields: the widening max/min step makes the invariant hold
before rounding, and rounding is monotone. -/
theorem c2_ohlc_invariant (k0 k1 : ℕ) (streams : ℕ → Draws) (today : ℤ)
    (symbol : String) (days : ℕ) (r : ℤ × Bar)
    (hr : r ∈ generate_sample_data k0 k1 streams today symbol days) :
    r.2.Low ≤ r.2.Open ∧ r.2.Open ≤ r.2.High ∧
      r.2.Low ≤ r.2.Close ∧ r.2.Close ≤ r.2.High := by
  simp only [generate_sample_data] at hr
  obtain ⟨j, o, p, d, hp, he⟩ := mem_mkRows _ _ _ _ _ _ hr
  rw [he]
  exact mkRow_ohlc _ _ _ _ _

/-- C2 witness: the hypotheses of `c2_ohlc_invariant` hold at a concrete input. -/
theorem c2_witness :
    ((0 : ℤ), barW) ∈ generate_sample_data 0 0 constStreams 0 "SPY" 0 ∧
      (barW.Low ≤ barW.Open ∧ barW.Open ≤ barW.High ∧
        barW.Low ≤ barW.Close ∧ barW.Close ≤ barW.High) :=
  ⟨by simp [gen_eval],
   c2_ohlc_invariant 0 0 constStreams 0 "SPY" 0 ((0 : ℤ), barW) (by simp [gen_eval])⟩

/-- C3 counterexample: run on a Monday (day 0) with the always-`None` stub client,
`get_multiple_symbols` maps both symbols to synthetic frames of 181 bars - the number of
weekdays in the 253-calendar-day window `[today - 252, today]` - not 252 as claimed. -/
theorem c3_counterexample :
    ((get_multiple_symbols stubEnv "data" ["SPY", "AAPL"]).1.map
        fun kv => kv.2.length) = [181, 181] ∧ (181 : ℕ) ≠ 252 := by
  have hf : ∀ s, fetch_data stubEnv "data" s true =
      (some (generate_sample_data 0 0 constStreams 0 s 252),
       [csvPath "data" s "20240601"]) := fun s => rfl
  refine ⟨?_, by decide⟩
  simp only [get_multiple_symbols, hf, List.map_cons, List.map_nil]
  rw [generate_sample_data_length, generate_sample_data_length]
  decide

/-- C3 (amended): with a stub client returning `None` for both symbols,
`get_multiple_symbols` returns a mapping with exactly the two entries, in order, each
holding the synthetic fallback series of its symbol, and writes exactly the two snapshot
files; each series' length is the weekday count of the 253-day calendar window ending
today (never the claimed 252 - it is 180 or 181). -/
theorem c3_fetchMany_fallback (env : Env) (dataDir s1 s2 : String)
    (hnone : ∀ s, env.fetchReal s = none) :
    (get_multiple_symbols env dataDir [s1, s2]).1 =
        [(s1, generate_sample_data env.k0 env.k1 env.streams env.today s1 252),
         (s2, generate_sample_data env.k0 env.k1 env.streams env.today s2 252)] ∧
      (get_multiple_symbols env dataDir [s1, s2]).2 =
        [csvPath dataDir s1 env.dateStr, csvPath dataDir s2 env.dateStr] ∧
      ∀ kv ∈ (get_multiple_symbols env dataDir [s1, s2]).1,
        kv.2.length = (tradingDates env.today 252).length := by
  have hf : ∀ s, fetch_data env dataDir s true =
      (some (generate_sample_data env.k0 env.k1 env.streams env.today s 252),
       [csvPath dataDir s env.dateStr]) := by
    intro s
    simp [fetch_data, hnone s]
  refine ⟨?_, ?_, ?_⟩
  · simp [get_multiple_symbols, hf]
  · simp [get_multiple_symbols, hf]
  · intro kv hkv
    simp only [get_multiple_symbols, hf, List.mem_cons, List.not_mem_nil, or_false]
      at hkv
    rcases hkv with h | h <;> rw [h] <;> simp [generate_sample_data_length]

/-- C3 witness: the hypothesis of `c3_fetchMany_fallback` holds for the stub client. -/
theorem c3_witness :
    (get_multiple_symbols stubEnv "data" ["SPY", "AAPL"]).1 =
        [("SPY", generate_sample_data 0 0 constStreams 0 "SPY" 252),
         ("AAPL", generate_sample_data 0 0 constStreams 0 "AAPL" 252)] ∧
      (get_multiple_symbols stubEnv "data" ["SPY", "AAPL"]).2 =
        [csvPath "data" "SPY" "20240601", csvPath "data" "AAPL" "20240601"] :=
  ⟨(c3_fetchMany_fallback stubEnv "data" "SPY" "AAPL" fun _ => rfl).1,
   (c3_fetchMany_fallback stubEnv "data" "SPY" "AAPL" fun _ => rfl).2.1⟩

/-- C4 counterexample: the generator can return an empty series: with lookback 1 run on
a Sunday (day index 6), the two-date window {Saturday, Sunday} contains no weekday and
`generate_sample_data` returns the empty frame, contradicting the claimed non-emptiness
for every lookbackDays ≥ 1. -/
theorem c4_counterexample :
    1 ≤ 1 ∧ generate_sample_data 0 0 constStreams 6 "AAPL" 1 = [] :=
  ⟨le_refl 1, rfl⟩

/-- C4 (amended): generation is total (no error path); the series length always equals
the number of weekday dates in the inclusive (lookbackDays + 1)-date calendar window
ending today, and for every lookbackDays ≥ 2 the series is non-empty (for
lookbackDays = 1 it is empty exactly when generation runs on a Sunday). -/
theorem c4_length_and_nonempty (k0 k1 : ℕ) (streams : ℕ → Draws) (today : ℤ)
    (symbol : String) (days : ℕ) (h2 : 2 ≤ days) :
    (generate_sample_data k0 k1 streams today symbol days).length
        = (tradingDates today days).length ∧
      generate_sample_data k0 k1 streams today symbol days ≠ [] :=
  ⟨generate_sample_data_length k0 k1 streams today symbol days,
   generate_sample_data_ne_nil k0 k1 streams today symbol days h2⟩

/-- C4 witness: the hypotheses of `c4_length_and_nonempty` hold at a concrete input. -/
theorem c4_witness :
    2 ≤ 2 ∧
      ((generate_sample_data 0 0 constStreams 0 "SPY" 2).length
          = (tradingDates 0 2).length ∧
        generate_sample_data 0 0 constStreams 0 "SPY" 2 ≠ []) :=
  ⟨by decide, c4_length_and_nonempty 0 0 constStreams 0 "SPY" 2 (by decide)⟩

/-- C5 counterexample: with the always-`None` stub client and fallback disabled,
`fetch_data` evaluates to the absent value `none` (with no snapshot written): the code
returns Python `None` rather than signalling an `EmptyResultError`-style explicit
failure. -/
theorem c5_counterexample :
    fetch_data stubEnv "data" "XYZ" false = (none, []) := rfl

/-- C5 (amended): given a client returning `None` for the symbol, `fetch_data` with
fallback enabled returns the synthetic series; with fallback disabled it returns `None`,
a silently absent value, not an explicit error signal. -/
theorem c5_fallback_policy (env : Env) (dataDir symbol : String)
    (hnone : env.fetchReal symbol = none) :
    (fetch_data env dataDir symbol true).1 =
        some (generate_sample_data env.k0 env.k1 env.streams env.today symbol 252) ∧
      (fetch_data env dataDir symbol false).1 = none := by
  simp [fetch_data, hnone]

/-- C5 witness: the hypothesis of `c5_fallback_policy` holds for the stub client. -/
theorem c5_witness :
    (fetch_data stubEnv "data" "XYZ" true).1 =
        some (generate_sample_data 0 0 constStreams 0 "XYZ" 252) ∧
      (fetch_data stubEnv "data" "XYZ" false).1 = none :=
  c5_fallback_policy stubEnv "data" "XYZ" rfl

/-- C6: the claimed distinctness of the "AAPL" and "MSFT" series fails in general: under
process hash secret (1152, 0) both symbols get seed 801 (`hash(symbol) % 1000`
collides), and since both also share the non-SPY base price 150, the generator returns
literally identical series for them, whatever the draw streams, day and window - also
contradicting the code's own comment that each symbol gets a different seed. -/
theorem c6_identical_series_possible :
    pySeed 1152 0 "AAPL" = pySeed 1152 0 "MSFT" ∧
      ∀ (streams : ℕ → Draws) (today : ℤ) (days : ℕ),
        generate_sample_data 1152 0 streams today "AAPL" days
          = generate_sample_data 1152 0 streams today "MSFT" days := by
  have hs : pySeed 1152 0 "AAPL" = pySeed 1152 0 "MSFT" := by decide
  exact ⟨hs, fun streams today days =>
    generate_eq_of_seed_eq 1152 0 streams today days (by decide) (by decide) hs⟩

/-- C7: every generated bar's close is at least 0.01: both base prices exceed 0.01,
every walk step is floored at 0.01, and 2-decimal rounding preserves the bound (0.01 is
a fixed point of the rounding). -/
theorem c7_close_floor (k0 k1 : ℕ) (streams : ℕ → Draws) (today : ℤ)
    (symbol : String) (days : ℕ) (r : ℤ × Bar)
    (hr : r ∈ generate_sample_data k0 k1 streams today symbol days) :
    1 / 100 ≤ r.2.Close := by
  simp only [generate_sample_data] at hr
  obtain ⟨j, o, p, d, hp, he⟩ := mem_mkRows _ _ _ _ _ _ hr
  have hq : 1 / 100 ≤ p := mem_buildPrices (basePrice_ge symbol) hp
  rw [he, mkRow_snd]
  show (1 : ℚ) / 100 ≤ round2 p
  calc (1 : ℚ) / 100 = round2 (1 / 100) := round2_hundredth.symm
    _ ≤ round2 p := round2_mono hq

/-- C7 witness: the hypotheses of `c7_close_floor` hold at a concrete input. -/
theorem c7_witness :
    ((0 : ℤ), barW) ∈ generate_sample_data 0 0 constStreams 0 "SPY" 0 ∧
      1 / 100 ≤ barW.Close :=
  ⟨by simp [gen_eval],
   c7_close_floor 0 0 constStreams 0 "SPY" 0 ((0 : ℤ), barW) (by simp [gen_eval])⟩

/-- C8: under NumPy's support contract for `randint(1000000, 10000000)` - integer values
in the half-open range [1000000, 10000000), the upper bound being exclusive - every
generated bar's volume is an integer in the claimed closed range
[1000000, 10000000]. -/
theorem c8_volume_range (k0 k1 : ℕ) (streams : ℕ → Draws) (today : ℤ)
    (symbol : String) (days : ℕ) (hok : RandintOk streams) (r : ℤ × Bar)
    (hr : r ∈ generate_sample_data k0 k1 streams today symbol days) :
    1000000 ≤ r.2.Volume ∧ r.2.Volume ≤ 10000000 := by
  simp only [generate_sample_data] at hr
  obtain ⟨j, o, p, d, hp, he⟩ := mem_mkRows _ _ _ _ _ _ hr
  rw [he, mkRow_snd]
  have h := hok (pySeed k0 k1 symbol) j
  exact ⟨h.1, le_of_lt h.2⟩

/-- C8 witness: the hypotheses of `c8_volume_range` hold at a concrete input. -/
theorem c8_witness :
    1000000 ≤ barW.Volume ∧ barW.Volume ≤ 10000000 :=
  c8_volume_range 0 0 constStreams 0 "SPY" 0
    (fun s i => ⟨le_refl _, by show (1000000 : ℕ) < 10000000; decide⟩)
    ((0 : ℤ), barW) (by simp [gen_eval])

/-- C9 counterexample: the robust fetcher saves a synthetic fallback series under the
plain snapshot name `data/XYZ_20240601.csv`, not the `_sample_` variant, so a synthetic
snapshot is not distinguishable from a real one by filename. -/
theorem c9_counterexample :
    (fetch_data stubEnv "data" "XYZ" true).2 = ["data/XYZ_20240601.csv"] ∧
      "data/XYZ_20240601.csv" ≠ "data/XYZ_sample_20240601.csv" :=
  ⟨rfl, by decide⟩

/-- C9 (amended): every snapshot save of `RobustDataFetcher.fetch_data` - real or
synthetic fallback alike - uses the plain path `<dir>/<symbol>_<date>.csv`; only
`SampleDataFetcher.generate_sample_data` writes the `<dir>/<symbol>_sample_<date>.csv`
variant. -/
theorem c9_snapshot_paths (env : Env) (dataDir symbol : String) (fb : Bool)
    (streams : ℕ → Draws) (today : ℤ) (dateStr : String) (days : ℕ)
    (w : String) (hw : w ∈ (fetch_data env dataDir symbol fb).2) :
    w = dataDir ++ "/" ++ symbol ++ "_" ++ env.dateStr ++ ".csv" ∧
      (sample_generate streams today dataDir dateStr symbol days).2 =
        dataDir ++ "/" ++ symbol ++ "_sample_" ++ dateStr ++ ".csv" := by
  refine ⟨?_, rfl⟩
  rcases henv : env.fetchReal symbol with _ | d
  · cases fb
    · simp [fetch_data, henv] at hw
    · simp [fetch_data, henv, csvPath] at hw
      exact hw
  · simp [fetch_data, henv, csvPath] at hw
    exact hw

/-- C9 witness: the hypotheses of `c9_snapshot_paths` hold at a concrete input. -/
theorem c9_witness :
    "data/XYZ_20240601.csv" ∈ (fetch_data stubEnv "data" "XYZ" true).2 ∧
      ("data/XYZ_20240601.csv" = "data" ++ "/" ++ "XYZ" ++ "_" ++ stubEnv.dateStr ++ ".csv" ∧
        (sample_generate constStreams 0 "data" "20240601" "XYZ" 252).2 =
          "data" ++ "/" ++ "XYZ" ++ "_sample_" ++ "20240601" ++ ".csv") :=
  ⟨by decide,
   c9_snapshot_paths stubEnv "data" "XYZ" true constStreams 0 "20240601" 252
     "data/XYZ_20240601.csv" (by decide)⟩

/-- C10: if the real fetch yields no data and fallback is disabled, `fetch_data` returns
the no-data value `none` and performs no snapshot write. -/
theorem c10_no_fallback_no_write (env : Env) (dataDir symbol : String)
    (hnone : env.fetchReal symbol = none) :
    fetch_data env dataDir symbol false = (none, []) := by
  simp [fetch_data, hnone]

/-- C10 witness: the hypothesis of `c10_no_fallback_no_write` holds for the stub
client. -/
theorem c10_witness :
    fetch_data stubEnv "data" "XYZ" false = (none, []) :=
  c10_no_fallback_no_write stubEnv "data" "XYZ" rfl

end Momentum
